import Mathlib

/-!
Verification of the rent-negotiation engine in `app.py`.

The Python program keeps one SQLite table of negotiations and drives a
rent-renewal conversation: `create_negotiation` inserts a row,
`negotiate_with_ai` turns an inbound tenant message (or its absence) into a
letter, a status and database updates, and small helpers
(`get_negotiation`, `update_negotiation`, `add_message_to_history`) mediate
all persistence.  This file gives a shallow embedding of that code: the
database is a list of rows, timestamps are natural-number ticks (each write
in one step uses a strictly later tick, mirroring successive calls of the
clock), and the two calls to the external chat service are modelled by
`Option`-valued inputs (`none` means the call raised an exception).
-/

/-- One entry of the stored `conversation_history` JSON list
(`add_message_to_history` in app.py). -/
structure Message where
  role : String
  content : String
  timestamp : Nat
deriving Repr, DecidableEq

/-- One row of the `negotiations` table (`init_db` in app.py).  The id
column is represented by position in the list and is never consulted by the
code under study. -/
structure Negotiation where
  tenant_name : String
  address : String
  city : String
  state : String
  zipcode : String
  current_rent : Int
  initial_target_rent : Int
  current_target_rent : Int
  status : String
  tenant_email : String
  conversation_history : List Message
  created_at : Nat
  updated_at : Nat
deriving Repr, DecidableEq

/-- The keyword arguments accepted by `update_negotiation` at its three call
sites in app.py: `status=`, `current_target_rent=` and
`conversation_history=`; a `none` field is an argument that was not
passed. -/
structure FieldPatch where
  status : Option String := none
  current_target_rent : Option Int := none
  conversation_history : Option (List Message) := none
deriving Repr, DecidableEq

/-- Effect of the generated `UPDATE negotiations SET ...` on a single row:
the passed fields are overwritten and `updated_at` is always refreshed
(app.py line 102). -/
def applyPatch (p : FieldPatch) (now : Nat) (n : Negotiation) : Negotiation :=
  { n with
    status := p.status.getD n.status
    current_target_rent := p.current_target_rent.getD n.current_target_rent
    conversation_history := p.conversation_history.getD n.conversation_history
    updated_at := now }

/-- `update_negotiation` (app.py lines 97-113): the SQL statement
`UPDATE negotiations SET ... WHERE tenant_email=?` touches every row whose
`tenant_email` matches, not only the most recently updated one. -/
def update_negotiation (tenant_email : String) (p : FieldPatch) (now : Nat)
    (db : List Negotiation) : List Negotiation :=
  db.map (fun n => if n.tenant_email = tenant_email then applyPatch p now n else n)

/-- Accumulator for `ORDER BY updated_at DESC LIMIT 1`: keep the row with
the larger `updated_at`, the earlier row on ties. -/
def pickLatest (best : Option Negotiation) (n : Negotiation) : Option Negotiation :=
  match best with
  | none => some n
  | some b => if b.updated_at < n.updated_at then some n else some b

/-- `get_negotiation` (app.py lines 66-74): the most recently updated row
for the given email, or `none`. -/
def get_negotiation (tenant_email : String) (db : List Negotiation) :
    Option Negotiation :=
  (db.filter (fun n => n.tenant_email = tenant_email)).foldl pickLatest none

/-- `create_negotiation` (app.py lines 77-94): raises (here `none`) when the
email is falsy, otherwise inserts a row with `status` set to the string
literal used in the SQL, both target columns equal to `target_rent`, and an
empty history. -/
def create_negotiation (tenant_name address city state zipcode : String)
    (current_rent target_rent : Int) (tenant_email : String) (now : Nat)
    (db : List Negotiation) : Option (List Negotiation) :=
  if tenant_email.isEmpty then none
  else some (db ++ [{
    tenant_name := tenant_name
    address := address
    city := city
    state := state
    zipcode := zipcode
    current_rent := current_rent
    initial_target_rent := target_rent
    current_target_rent := target_rent
    status := "active"
    tenant_email := tenant_email
    conversation_history := []
    created_at := now
    updated_at := now }])

/-- `add_message_to_history` (app.py lines 116-129): re-reads the live row,
appends one entry to its history and writes the result back through
`update_negotiation` (hence to every row with the email). -/
def add_message_to_history (tenant_email role content : String) (now : Nat)
    (db : List Negotiation) : List Negotiation :=
  match get_negotiation tenant_email db with
  | none => db
  | some neg =>
      update_negotiation tenant_email
        { conversation_history :=
            some (neg.conversation_history ++ [⟨role, content, now⟩]) }
        now db

/-- The structured decision parsed from the reasoning-service JSON
(app.py lines 383-390). -/
structure Analysis where
  tenant_offer : Option Int
  tenant_intent : String
  should_accept : Bool
  recommended_counter : Option Int
  reasoning : String
deriving Repr, DecidableEq

/-- Python `x or y` on an optional integer: `None` and `0` are falsy. -/
def pyOr (v : Option Int) (d : Int) : Int :=
  match v with
  | some x => if x = 0 then d else x
  | none => d

/-- Longest leading run of ASCII digits of a character list, with the rest. -/
def takeDigitRun : List Char → List Char × List Char
  | [] => ([], [])
  | c :: cs =>
    if c.isDigit then
      let p := takeDigitRun cs
      (c :: p.1, p.2)
    else ([], c :: cs)

/-- The `(?:,\d\x7b3\x7d)*` tail of the fallback regex: repeatedly consume a
comma followed by exactly three digits, returning the digits collected and
the rest of the input. -/
def takeCommaGroups : List Char → List Char × List Char
  | ',' :: a :: b :: c :: rest =>
    if a.isDigit && b.isDigit && c.isDigit then
      let p := takeCommaGroups rest
      (a :: b :: c :: p.1, p.2)
    else ([], ',' :: a :: b :: c :: rest)
  | l => ([], l)

/-- Numeric value of a list of ASCII digits. -/
def digitsToNat (ds : List Char) : Nat :=
  ds.foldl (fun a c => a * 10 + (c.toNat - 48)) 0

/-- Group 1 of the first match of the fallback pattern
`\$?(\d+(?:,\d\x7b3\x7d)*)` (app.py line 443), with the commas stripped as by
`replace(',', '')`: scan to the first digit, take the maximal digit run and
then any comma-separated three-digit groups. -/
def firstAmount : List Char → Option Nat
  | [] => none
  | c :: cs =>
    if c.isDigit then
      let p := takeDigitRun (c :: cs)
      let q := takeCommaGroups p.2
      some (digitsToNat (p.1 ++ q.1))
    else firstAmount cs

/-- The deterministic analysis used when the reasoning-service call raises
or its output fails to parse (app.py lines 431-447): a `discussing`
non-acceptance keeping the current position, upgraded to an offer (and to
acceptance when that offer reaches the current position) if the tenant
message contains a number. -/
def fallbackAnalysis (tenant_message : String) (current_target_rent : Int) :
    Analysis :=
  let base : Analysis :=
    { tenant_offer := none
      tenant_intent := "discussing"
      should_accept := false
      recommended_counter := some current_target_rent
      reasoning := "Fallback logic" }
  if tenant_message.isEmpty then base
  else
    match firstAmount tenant_message.data with
    | none => base
    | some n =>
      { base with
        tenant_offer := some (Int.ofNat n)
        should_accept := decide (current_target_rent ≤ (Int.ofNat n)) }

/-- Round a positive integer to 53 significant bits, ties to even: the value
(scaled) of the IEEE double nearest to it.  Used to model CPython float
multiplication exactly. -/
def roundSig53 (q : Nat) : Nat :=
  if q < 2 ^ 53 then q
  else
    let sh := q.log2 - 52
    let d := q / 2 ^ sh
    let r := q % 2 ^ sh
    let half := 2 ^ (sh - 1)
    let d2 :=
      if half < r then d + 1
      else if r < half then d
      else if d % 2 = 0 then d else d + 1
    d2 * 2 ^ sh

/-- CPython `int(n * f)` where `f` is the double with value
`mant / 2 ^ e`: the conversion of `n` to double is exact for
`|n| < 2 ^ 53`, the product is rounded to nearest (ties to even) and `int`
truncates toward zero. -/
def pyFloatMulTrunc (n : Int) (mant : Nat) (e : Nat) : Int :=
  (if n < 0 then -1 else 1) * Int.ofNat (roundSig53 (n.natAbs * mant) / 2 ^ e)

/-- `int(x * 0.9)` (app.py line 354); the double 0.9 is
8106479329266893 / 2 ^ 53. -/
def int_mul_0_9 (n : Int) : Int := pyFloatMulTrunc n 8106479329266893 53

/-- `int(x * 1.1)` (app.py line 354); the double 1.1 is
4953959590107546 / 2 ^ 52. -/
def int_mul_1_1 (n : Int) : Int := pyFloatMulTrunc n 4953959590107546 52

/-- The template opening letter (app.py lines 348-362), rendered verbatim
from the row read at the start of the step. -/
def initial_letter (n : Negotiation) : String :=
  "Hi " ++ n.tenant_name ++
  ",\n\nIt\x27s been a while since our original lease rent at $" ++
  toString n.current_rent ++
  "/month. The market price in the area has shifted since then.\n\nI did some research:\n- Zillow shows the current market rent for similar properties in " ++
  n.city ++ " is around $" ++ toString n.initial_target_rent ++
  "/month\n- Other comparable listings in the area range from $" ++
  toString (int_mul_0_9 n.initial_target_rent) ++ " to $" ++
  toString (int_mul_1_1 n.initial_target_rent) ++
  "/month\n\nCan you let me know the following by the end of this month?\n\n1. Knowing the market rent and the prices available in the open market, " ++
  "what price would you be comfortable with?" ++
  " I\x27d like you to name the price since I want to make sure it\x27s not a big burden for you to come up with the rent.\n\n2. " ++
  "Do you prefer a 1-year or 2-year contract?" ++
  " For a 2-year contract, I would expect a slightly higher rent commitment since the rent is guaranteed for 2 years.\n\nLooking forward to hearing from you!"

/-- The `(letter_text, status, metadata)` triple returned by
`negotiate_with_ai`, with the metadata keys that occur at its return
sites. -/
structure StepResult where
  letter_text : Option String
  status : String
  agreed_rent : Option Int := none
  management_offer : Option Int := none
  tenant_offer : Option Int := none
  ai_reasoning : Option String := none
  error_msg : Option String := none
deriving Repr, DecidableEq

/-- `negotiate_with_ai` (app.py lines 311-519).  `ai_analysis` is the parsed
result of the analysis call to the reasoning service (`none` when the call
raised or its output was unparseable, in which case the code falls back to
`fallbackAnalysis`); `ai_letter` is the result of the letter-rendering call
(`none` when it raised).  `t` is the clock at the start of the step; each
successive write uses the next tick. -/
def negotiate_with_ai (db : List Negotiation) (tenant_email : String)
    (tenant_message : Option String) (ai_analysis : Option Analysis)
    (ai_letter : Option String) (t : Nat) : StepResult × List Negotiation :=
  match get_negotiation tenant_email db with
  | none =>
      ({ letter_text := none, status := "error",
         error_msg := some "No negotiation found" }, db)
  | some neg =>
    let msg := tenant_message.getD ""
    if msg.isEmpty then
      let letter := initial_letter neg
      let db1 := add_message_to_history tenant_email "assistant" letter t db
      ({ letter_text := some letter, status := "countered",
         management_offer := some neg.current_target_rent }, db1)
    else
      let db1 := add_message_to_history tenant_email "user" msg t db
      let analysis :=
        ai_analysis.getD (fallbackAnalysis msg neg.current_target_rent)
      match ai_letter with
      | none =>
          ({ letter_text := none, status := "error",
             error_msg := some "letter generation failed" }, db1)
      | some letter =>
        let db2 := add_message_to_history tenant_email "assistant" letter (t + 1) db1
        if analysis.should_accept then
          let agreed := pyOr analysis.tenant_offer neg.current_target_rent
          let db3 := update_negotiation tenant_email
            { status := some "accepted", current_target_rent := some agreed }
            (t + 2) db2
          ({ letter_text := some letter, status := "accepted",
             agreed_rent := some agreed,
             tenant_offer := analysis.tenant_offer,
             ai_reasoning := some analysis.reasoning }, db3)
        else
          let counter := pyOr analysis.recommended_counter neg.current_target_rent
          let db3 := update_negotiation tenant_email
            { current_target_rent := some counter } (t + 2) db2
          ({ letter_text := some letter, status := "countered",
             management_offer := some counter,
             tenant_offer := analysis.tenant_offer,
             ai_reasoning := some analysis.reasoning }, db3)

/-- The `/ai/continue-negotiation` endpoint (app.py lines 698-732):
validation, the not-found check, then `negotiate_with_ai`. -/
def continue_negotiation (db : List Negotiation)
    (tenant_email tenant_message : String) (ai_analysis : Option Analysis)
    (ai_letter : Option String) (t : Nat) : StepResult × List Negotiation :=
  if tenant_email.isEmpty then
    ({ letter_text := none, status := "error",
       error_msg := some "tenant_email is required" }, db)
  else if tenant_message.isEmpty then
    ({ letter_text := none, status := "error",
       error_msg := some "tenant_message is required" }, db)
  else
    match get_negotiation tenant_email db with
    | none =>
        ({ letter_text := none, status := "error",
           error_msg := some "No active negotiation found for this email" }, db)
    | some _ =>
        negotiate_with_ai db tenant_email (some tenant_message) ai_analysis
          ai_letter t

/-- The core of `/ai/start-negotiation` (app.py lines 673-686) once the
target rent has been resolved: insert the row, then run the opening-letter
step. -/
def start_negotiation (db : List Negotiation)
    (tenant_name address city state zipcode : String)
    (current_rent target_rent : Int) (tenant_email : String) (t : Nat) :
    Option (StepResult × List Negotiation) :=
  match create_negotiation tenant_name address city state zipcode
      current_rent target_rent tenant_email t db with
  | none => none
  | some db1 => some (negotiate_with_ai db1 tenant_email none none none (t + 1))

/-- The invariant of §3 of the spec on one row. -/
def RentBounds (n : Negotiation) : Prop :=
  n.current_rent ≤ n.current_target_rent ∧
    n.current_target_rent ≤ n.initial_target_rent

instance (n : Negotiation) : Decidable (RentBounds n) := by
  unfold RentBounds; infer_instance

/-- `pat` occurs verbatim as a contiguous substring of `s`. -/
def mentions (s pat : String) : Prop :=
  ∃ u v : List Char, s.data = u ++ pat.data ++ v

/-- Executable substring check used to decide `mentions` on concrete
strings. -/
def containsSub (pat s : List Char) : Bool :=
  match s with
  | [] => pat.isEmpty
  | _ :: rest => pat.isPrefixOf s || containsSub pat rest

/-- The value STEP 3 of `negotiate_with_ai` writes to `current_target_rent`
(app.py lines 497-517): the tenant offer or, failing that, the previous
position when accepting, else the recommended counter or, failing that, the
previous position. -/
def writtenTarget (a : Analysis) (prev : Int) : Int :=
  if a.should_accept then pyOr a.tenant_offer prev
  else pyOr a.recommended_counter prev

/-- The fixture of test_conversation.py (test_full_negotiation): current
rent 2500, market target 2800; used as the concrete input of several
witnesses and counterexamples. -/
def exRow : Negotiation :=
  { tenant_name := "Alice Johnson"
    address := "456 Oak Avenue"
    city := "San Francisco"
    state := "CA"
    zipcode := "94102"
    current_rent := 2500
    initial_target_rent := 2800
    current_target_rent := 2800
    status := "active"
    tenant_email := "t@example.com"
    conversation_history := []
    created_at := 0
    updated_at := 0 }

/-- A stale duplicate row for the same tenant email, with an older
`updated_at` than `exRow`, used to exercise the duplicate-row behaviour of
`update_negotiation`. -/
def exRowStale : Negotiation :=
  { exRow with
    address := "1 Old Road"
    current_rent := 2000
    initial_target_rent := 2100
    current_target_rent := 2100
    conversation_history := [⟨"assistant", "old thread", 0⟩]
    created_at := 0
    updated_at := 0 }

/-- The `exRow` fixture after the opening letter has been answered and
accepted, as stored by the acceptance branch. -/
def exRowAccepted : Negotiation :=
  { exRow with status := "accepted", updated_at := 10 }

set_option maxRecDepth 10000

theorem get_negotiation_singleton (n : Negotiation) :
    get_negotiation n.tenant_email [n] = some n := by
  simp [get_negotiation, pickLatest]

/-- Normal form of a continue step on a one-row database when the
letter-rendering call raises: an error result, only the tenant message
persisted. -/
theorem negotiate_letterfail_singleton (n : Negotiation) (msg : String)
    (oa : Option Analysis) (t : Nat) (hm : msg.isEmpty = false) :
    negotiate_with_ai [n] n.tenant_email (some msg) oa none t =
      ({ letter_text := none, status := "error",
         error_msg := some "letter generation failed" },
       [{ n with
          conversation_history := n.conversation_history ++ [⟨"user", msg, t⟩],
          updated_at := t }]) := by
  simp [negotiate_with_ai, add_message_to_history, get_negotiation, pickLatest,
    update_negotiation, applyPatch, hm]

/-- Normal form of a continue step on a one-row database when the decision
is acceptance and the letter call succeeds. -/
theorem negotiate_accept_singleton (n : Negotiation) (msg letter : String)
    (oa : Option Analysis) (t : Nat) (hm : msg.isEmpty = false)
    (ha : (oa.getD (fallbackAnalysis msg n.current_target_rent)).should_accept = true) :
    negotiate_with_ai [n] n.tenant_email (some msg) oa (some letter) t =
      (let a := oa.getD (fallbackAnalysis msg n.current_target_rent)
       ({ letter_text := some letter, status := "accepted",
          agreed_rent := some (pyOr a.tenant_offer n.current_target_rent),
          tenant_offer := a.tenant_offer,
          ai_reasoning := some a.reasoning },
        [{ n with
           status := "accepted",
           current_target_rent := pyOr a.tenant_offer n.current_target_rent,
           conversation_history := n.conversation_history ++
             [⟨"user", msg, t⟩, ⟨"assistant", letter, t + 1⟩],
           updated_at := t + 2 }])) := by
  simp [negotiate_with_ai, add_message_to_history, get_negotiation, pickLatest,
    update_negotiation, applyPatch, hm, ha]

/-- Normal form of a continue step on a one-row database when the decision
is not acceptance and the letter call succeeds: note that the stored patch
carries no status field. -/
theorem negotiate_counter_singleton (n : Negotiation) (msg letter : String)
    (oa : Option Analysis) (t : Nat) (hm : msg.isEmpty = false)
    (ha : (oa.getD (fallbackAnalysis msg n.current_target_rent)).should_accept = false) :
    negotiate_with_ai [n] n.tenant_email (some msg) oa (some letter) t =
      (let a := oa.getD (fallbackAnalysis msg n.current_target_rent)
       ({ letter_text := some letter, status := "countered",
          management_offer := some (pyOr a.recommended_counter n.current_target_rent),
          tenant_offer := a.tenant_offer,
          ai_reasoning := some a.reasoning },
        [{ n with
           current_target_rent := pyOr a.recommended_counter n.current_target_rent,
           conversation_history := n.conversation_history ++
             [⟨"user", msg, t⟩, ⟨"assistant", letter, t + 1⟩],
           updated_at := t + 2 }])) := by
  simp [negotiate_with_ai, add_message_to_history, get_negotiation, pickLatest,
    update_negotiation, applyPatch, hm, ha]

/-- Normal form of the opening-letter step on a one-row database: the
template letter is recorded in history but no status or rent field is
written. -/
theorem negotiate_initial_singleton (n : Negotiation) (oa : Option Analysis)
    (ol : Option String) (t : Nat) :
    negotiate_with_ai [n] n.tenant_email none oa ol t =
      ({ letter_text := some (initial_letter n), status := "countered",
         management_offer := some n.current_target_rent },
       [{ n with
          conversation_history := n.conversation_history ++
            [⟨"assistant", initial_letter n, t⟩],
          updated_at := t }]) := by
  simp [negotiate_with_ai, add_message_to_history, get_negotiation, pickLatest,
    update_negotiation, applyPatch, show "".isEmpty = true from rfl]

theorem exists_split_of_containsSub :
    ∀ (pat s : List Char), containsSub pat s = true → ∃ u v, s = u ++ pat ++ v := by
  intro pat s
  induction s with
  | nil =>
    intro h
    simp only [containsSub, List.isEmpty_iff] at h
    exact ⟨[], [], by simp [h]⟩
  | cons c cs ih =>
    intro h
    simp only [containsSub, Bool.or_eq_true] at h
    rcases h with h | h
    · obtain ⟨v, hv⟩ := (List.isPrefixOf_iff_prefix).mp h
      exact ⟨[], v, by simp [hv]⟩
    · obtain ⟨u, v, huv⟩ := ih h
      exact ⟨c :: u, v, by simp [huv]⟩

theorem mentions_of_containsSub (s pat : String)
    (h : containsSub pat.data s.data = true) : mentions s pat := by
  obtain ⟨u, v, huv⟩ := exists_split_of_containsSub pat.data s.data h
  exact ⟨u, v, huv⟩

theorem mentions_append_left (a b pat : String) (h : mentions a pat) :
    mentions (a ++ b) pat := by
  obtain ⟨u, v, hv⟩ := h
  exact ⟨u, v ++ b.data, by simp [String.data_append, hv]⟩

theorem mentions_append_right (a b pat : String) (h : mentions b pat) :
    mentions (a ++ b) pat := by
  obtain ⟨u, v, hv⟩ := h
  exact ⟨a.data ++ u, v, by simp [String.data_append, hv]⟩

theorem mentions_refl (s : String) : mentions s s := ⟨[], [], by simp⟩

/-- C4: the claim states that the opening letter never contains the dollar
figure of current_target_rent or initial_target_rent verbatim as a proposed
price, with only the market-comparison range allowed to disclose market
figures.  Counterexample: for the stored row with
initial_target_rent = current_target_rent = 2800, the rendered template
contains the substring composed of a dollar sign followed by that exact
figure, in the Zillow market sentence, outside the 2520 to 3080 range
disclosure. -/
theorem C4_counterexample :
    exRow.current_target_rent = exRow.initial_target_rent ∧
    exRow.initial_target_rent = 2800 ∧
    mentions (initial_letter exRow) ("$" ++ toString exRow.initial_target_rent) :=
  ⟨by decide, by decide, mentions_of_containsSub _ _ (by decide)⟩

/-- C4 (amended): the opening letter proposes no price of its own and asks
the tenant to name a price first and to choose a lease term, but it does
disclose initial_target_rent verbatim: the exact figure appears as the
Zillow market estimate, in addition to the comparison range computed as the
truncated products with the doubles 0.9 and 1.1. -/
theorem C4_opening_letter_discloses_market_figure (n : Negotiation) :
    mentions (initial_letter n) (" is around $" ++ toString n.initial_target_rent) ∧
    mentions (initial_letter n)
      ("/month\n- Other comparable listings in the area range from $" ++
        toString (int_mul_0_9 n.initial_target_rent) ++ " to $" ++
        toString (int_mul_1_1 n.initial_target_rent)) ∧
    mentions (initial_letter n) "what price would you be comfortable with?" ∧
    mentions (initial_letter n) "Do you prefer a 1-year or 2-year contract?" := by
  refine ⟨?_, ?_, ?_, ?_⟩
  · simp only [initial_letter]
    iterate 9 apply mentions_append_left
    simp only [String.append_assoc]
    repeat first | exact mentions_refl _ | apply mentions_append_right
  · simp only [initial_letter]
    iterate 5 apply mentions_append_left
    simp only [String.append_assoc]
    repeat first | exact mentions_refl _ | apply mentions_append_right
  · simp only [initial_letter]
    iterate 3 apply mentions_append_left
    simp only [String.append_assoc]
    repeat first | exact mentions_refl _ | apply mentions_append_right
  · simp only [initial_letter]
    iterate 1 apply mentions_append_left
    simp only [String.append_assoc]
    repeat first | exact mentions_refl _ | apply mentions_append_right

/-- C10: because `update_negotiation` filters only on `tenant_email`, every
update during a continue step (status write, position write, history write
through `add_message_to_history`) is applied to every row with that email,
stamping each with the new `updated_at` and, for a history write, replacing
every history with the live row history plus the new entry; rows other than
the live one do not stay unchanged. -/
theorem C10_updates_touch_every_matching_row (email role content : String)
    (p : FieldPatch) (now : Nat) (db : List Negotiation) (i : Nat)
    (L : Negotiation) :
    ((update_negotiation email p now db).get? i =
      (db.get? i).map (fun n =>
        if n.tenant_email = email then applyPatch p now n else n)) ∧
    (∀ n0, db.get? i = some n0 → n0.tenant_email = email →
      (update_negotiation email p now db).get? i = some (applyPatch p now n0) ∧
      (applyPatch p now n0).updated_at = now) ∧
    (get_negotiation email db = some L →
      (add_message_to_history email role content now db).get? i =
        (db.get? i).map (fun n =>
          if n.tenant_email = email then
            { n with
              conversation_history :=
                L.conversation_history ++ [⟨role, content, now⟩],
              updated_at := now }
          else n)) := by
  have hupd : (update_negotiation email p now db).get? i =
      (db.get? i).map (fun n =>
        if n.tenant_email = email then applyPatch p now n else n) := by
    simp [update_negotiation, List.get?_map]
  refine ⟨hupd, ?_, ?_⟩
  · intro n0 h0 hmail
    rw [hupd, h0]
    simp [hmail, applyPatch]
  · intro hL
    simp only [add_message_to_history, hL, update_negotiation, List.get?_map]
    cases h0 : db.get? i with
    | none => rfl
    | some n0 => simp [applyPatch]

theorem C10_witness :
    (add_message_to_history "t@example.com" "user" "hi" 9
        [exRowStale, { exRow with updated_at := 5 }]).get? 0 =
      some { exRowStale with
             conversation_history := [⟨"user", "hi", 9⟩],
             updated_at := 9 } := by
  have h := (C10_updates_touch_every_matching_row "t@example.com" "user" "hi"
    {} 9 [exRowStale, { exRow with updated_at := 5 }] 0
    { exRow with updated_at := 5 }).2.2 (by decide)
  rw [h]; decide

/-- C8: when the letter-rendering call to the reasoning service raises, the
step returns an error result with no letter, and the stored row keeps its
status and current_target_rent; the only change is the tenant message
already appended to history, so no manager letter is recorded. -/
theorem C8_letter_failure_gives_error_and_no_partial_update (n : Negotiation)
    (msg : String) (oa : Option Analysis) (t : Nat) (hm : msg.isEmpty = false) :
    ((negotiate_with_ai [n] n.tenant_email (some msg) oa none t).1.letter_text
      = none) ∧
    ((negotiate_with_ai [n] n.tenant_email (some msg) oa none t).1.status
      = "error") ∧
    ((negotiate_with_ai [n] n.tenant_email (some msg) oa none t).1.error_msg
      ≠ none) ∧
    (∀ r ∈ (negotiate_with_ai [n] n.tenant_email (some msg) oa none t).2,
      r.status = n.status ∧ r.current_target_rent = n.current_target_rent ∧
      r.initial_target_rent = n.initial_target_rent ∧
      r.conversation_history = n.conversation_history ++ [⟨"user", msg, t⟩]) := by
  simp [negotiate_letterfail_singleton n msg oa t hm]

theorem C8_witness :
    (negotiate_with_ai [exRow] exRow.tenant_email (some "hello") none none 1).1.status
      = "error" ∧
    ({ exRow with
       conversation_history := [⟨"user", "hello", 1⟩],
       updated_at := 1 } : Negotiation).current_target_rent
      = exRow.current_target_rent :=
  ⟨(C8_letter_failure_gives_error_and_no_partial_update exRow "hello" none 1
      (by decide)).2.1,
   ((C8_letter_failure_gives_error_and_no_partial_update exRow "hello" none 1
      (by decide)).2.2.2 _ (by decide)).2.1⟩

/-- C9: the claim states that the tenant message is appended with role
tenant and the letter with role manager.  Counterexample: the stored roles
are the OpenAI chat roles user and assistant (app.py lines 334 and 487),
which differ from tenant and manager. -/
theorem C9_counterexample :
    (negotiate_with_ai [exRow] "t@example.com" (some "hello there friend")
        none (some "ok") 1).2 =
      [{ exRow with
         conversation_history :=
           [⟨"user", "hello there friend", 1⟩, ⟨"assistant", "ok", 2⟩],
         updated_at := 3 }] ∧
    ("user" : String) ≠ "tenant" ∧ ("assistant" : String) ≠ "manager" := by
  decide

/-- C9 (amended): on every continue step the inbound tenant message is
appended to history before the analysis and letter stages run (it is
persisted even when the letter call fails), with role user, and the
generated letter is appended with role assistant and the next timestamp
immediately after production, before the step returns. -/
theorem C9_history_appends_with_openai_roles (n : Negotiation)
    (msg letter : String) (oa : Option Analysis) (t : Nat)
    (hm : msg.isEmpty = false) :
    (∀ r ∈ (negotiate_with_ai [n] n.tenant_email (some msg) oa (some letter) t).2,
      r.conversation_history = n.conversation_history ++
        [⟨"user", msg, t⟩, ⟨"assistant", letter, t + 1⟩]) ∧
    (∀ r ∈ (negotiate_with_ai [n] n.tenant_email (some msg) oa none t).2,
      r.conversation_history = n.conversation_history ++ [⟨"user", msg, t⟩]) := by
  constructor
  · cases ha : (oa.getD (fallbackAnalysis msg n.current_target_rent)).should_accept
    · simp [negotiate_counter_singleton n msg letter oa t hm ha]
    · simp [negotiate_accept_singleton n msg letter oa t hm ha]
  · simp [negotiate_letterfail_singleton n msg oa t hm]

theorem C9_witness :
    ("hi friend".isEmpty = false) ∧
    ({ exRow with
       conversation_history :=
         [⟨"user", "hi friend", 1⟩, ⟨"assistant", "ok", 2⟩],
       updated_at := 3 } : Negotiation).conversation_history =
      exRow.conversation_history ++
        [⟨"user", "hi friend", 1⟩, ⟨"assistant", "ok", 2⟩] :=
  ⟨by decide,
   (C9_history_appends_with_openai_roles exRow "hi friend" "ok" none 1
      (by decide)).1 _ (by decide)⟩

/-- C5: the claim states that the stored status becomes countered once the
opening letter is recorded.  Counterexample: after a start flow the step
returns countered, but the row read back by a fetch still has status
active, because the opening-letter branch never writes a status field. -/
theorem C5_counterexample :
    (start_negotiation [] "Alice Johnson" "456 Oak Avenue" "San Francisco" "CA"
        "94102" 2500 2800 "t@example.com" 0).map
      (fun p => ((get_negotiation "t@example.com" p.2).map (fun r => r.status),
        p.1.status)) = some (some "active", "countered") ∧
    ("active" : String) ≠ "countered" := by decide

/-- C5 (amended): a started negotiation is created with status active and
the opening-letter step returns countered to its caller, but it stores no
status change: after the opening letter is recorded the stored status is
still active, and a fetch before any tenant message returns active. -/
theorem C5_opening_returns_countered_but_stores_active
    (tenant_name address city state zipcode : String)
    (current_rent target_rent : Int) (email : String) (t : Nat)
    (hE : email.isEmpty = false) :
    (start_negotiation [] tenant_name address city state zipcode current_rent
        target_rent email t).map
      (fun p => (p.1.status, p.2.map (fun r => r.status))) =
      some ("countered", ["active"]) := by
  simp [start_negotiation, create_negotiation, hE, negotiate_with_ai,
    add_message_to_history, get_negotiation, pickLatest, update_negotiation,
    applyPatch, show "".isEmpty = true from rfl]

theorem C5_witness :
    (start_negotiation [] "Bob Smith" "789 Pine Street" "Oakland" "CA" "94601"
        2000 2200 "b@example.com" 0).map
      (fun p => (p.1.status, p.2.map (fun r => r.status))) =
      some ("countered", ["active"]) :=
  C5_opening_returns_countered_but_stores_active "Bob Smith" "789 Pine Street"
    "Oakland" "CA" "94601" 2000 2200 "b@example.com" 0 (by decide)

/-- C6: on an accepting continue step the stored status becomes accepted
and current_target_rent is set to the tenant offer when one was extracted
(the code treats a zero offer as absent, hence the positivity side
condition), else to the current position. -/
theorem C6_acceptance_sets_status_and_agreed_figure (n : Negotiation)
    (msg letter : String) (oa : Option Analysis) (t : Nat)
    (hm : msg.isEmpty = false)
    (ha : (oa.getD (fallbackAnalysis msg n.current_target_rent)).should_accept
      = true)
    (ho : (oa.getD (fallbackAnalysis msg n.current_target_rent)).tenant_offer
        = none ∨
      ∃ k : Int,
        (oa.getD (fallbackAnalysis msg n.current_target_rent)).tenant_offer
          = some k ∧ 0 < k) :
    ((negotiate_with_ai [n] n.tenant_email (some msg) oa (some letter) t).1.status
      = "accepted") ∧
    ((negotiate_with_ai [n] n.tenant_email (some msg) oa (some letter) t).1.agreed_rent
      = some ((oa.getD (fallbackAnalysis msg n.current_target_rent)).tenant_offer.getD
          n.current_target_rent)) ∧
    (∀ r ∈ (negotiate_with_ai [n] n.tenant_email (some msg) oa (some letter) t).2,
      r.status = "accepted" ∧
      r.current_target_rent =
        (oa.getD (fallbackAnalysis msg n.current_target_rent)).tenant_offer.getD
          n.current_target_rent) := by
  have hpy : pyOr (oa.getD (fallbackAnalysis msg n.current_target_rent)).tenant_offer
      n.current_target_rent =
      (oa.getD (fallbackAnalysis msg n.current_target_rent)).tenant_offer.getD
        n.current_target_rent := by
    rcases ho with h | ⟨k, hk, hkpos⟩
    · rw [h]; rfl
    · rw [hk]
      have hk0 : k ≠ 0 := by omega
      simp [pyOr, hk0]
  simp [negotiate_accept_singleton n msg letter oa t hm ha, hpy]

theorem C6_witness :
    (negotiate_with_ai [exRow] exRow.tenant_email (some "I accept $2800/month")
        none (some "ok") 1).1.status = "accepted" ∧
    (negotiate_with_ai [exRow] exRow.tenant_email (some "I accept $2800/month")
        none (some "ok") 1).1.agreed_rent = some 2800 := by
  have h := C6_acceptance_sets_status_and_agreed_figure exRow
    "I accept $2800/month" "ok" none 1 (by decide) (by decide)
    (Or.inr ⟨2800, by decide, by decide⟩)
  exact ⟨h.1, by rw [h.2.1]; decide⟩

theorem fallback_recommended_counter_eq (msg : String) (prev : Int) :
    (fallbackAnalysis msg prev).recommended_counter = some prev := by
  unfold fallbackAnalysis
  by_cases hm : msg.isEmpty
  · simp [hm]
  · cases hfa : firstAmount msg.data <;> simp [hm, hfa]

theorem fallback_offer_ge_of_accept (msg : String) (prev : Int)
    (h : (fallbackAnalysis msg prev).should_accept = true) :
    prev ≤ pyOr (fallbackAnalysis msg prev).tenant_offer prev := by
  unfold fallbackAnalysis at h ⊢
  by_cases hm : msg.isEmpty
  · simp [hm] at h
  · cases hfa : firstAmount msg.data with
    | none => simp [hm, hfa] at h
    | some k =>
      simp [hm, hfa] at h ⊢
      simp [pyOr]
      split
      · omega
      · exact h

/-- C7: the claim states that after acceptance no continue call changes the
status or decreases current_target_rent.  Counterexample: on an accepted row
at 2800 a further continue step whose analysis recommends 2600 writes 2600,
a decrease, with no guard on the accepted state. -/
theorem C7_counterexample :
    exRowAccepted.status = "accepted" ∧
    exRowAccepted.current_target_rent = 2800 ∧
    (continue_negotiation [exRowAccepted] "t@example.com" "can we do $2600"
        (some { tenant_offer := some 2600, tenant_intent := "countering",
                should_accept := false, recommended_counter := some 2600,
                reasoning := "tenant pushes back" }) (some "ok") 11).2 =
      [{ exRowAccepted with
         current_target_rent := 2600,
         conversation_history :=
           [⟨"user", "can we do $2600", 11⟩, ⟨"assistant", "ok", 12⟩],
         updated_at := 13 }] ∧
    (2600 : Int) < 2800 := by decide

/-- C7 (amended): the stored status accepted is terminal, since the
countered branch writes no status field and the accept branch rewrites
accepted; but current_target_rent stays mutable after acceptance: a further
continue step writes the analysis figure unguarded (it can decrease, as the
counterexample shows), while under the deterministic fallback analysis the
stored position never decreases. -/
theorem C7_accepted_status_terminal_but_target_mutable (n : Negotiation)
    (msg : String) (oa : Option Analysis) (ol : Option String) (t : Nat)
    (hst : n.status = "accepted") (hm : msg.isEmpty = false) :
    (∀ r ∈ (continue_negotiation [n] n.tenant_email msg oa ol t).2,
      r.status = "accepted") ∧
    (oa = none →
      ∀ r ∈ (continue_negotiation [n] n.tenant_email msg oa ol t).2,
        n.current_target_rent ≤ r.current_target_rent) := by
  have hcont : continue_negotiation [n] n.tenant_email msg oa ol t =
      if n.tenant_email.isEmpty then
        ({ letter_text := none, status := "error",
           error_msg := some "tenant_email is required" }, [n])
      else negotiate_with_ai [n] n.tenant_email (some msg) oa ol t := by
    by_cases hE : n.tenant_email.isEmpty
    · simp [continue_negotiation, hE]
    · simp [continue_negotiation, hE, hm, get_negotiation_singleton]
  by_cases hE : n.tenant_email.isEmpty
  · rw [hcont]
    simp [hE, hst]
  · rw [hcont]
    simp only [hE, Bool.false_eq_true, if_false]
    constructor
    · cases ol with
      | none => simp [negotiate_letterfail_singleton n msg oa t hm, hst]
      | some letter =>
        cases ha : (oa.getD (fallbackAnalysis msg n.current_target_rent)).should_accept
        · simp [negotiate_counter_singleton n msg letter oa t hm ha, hst]
        · simp [negotiate_accept_singleton n msg letter oa t hm ha]
    · intro hoa
      subst hoa
      cases ol with
      | none => simp [negotiate_letterfail_singleton n msg none t hm]
      | some letter =>
        cases ha : ((none : Option Analysis).getD
            (fallbackAnalysis msg n.current_target_rent)).should_accept
        · simp [negotiate_counter_singleton n msg letter none t hm ha,
            fallback_recommended_counter_eq, pyOr]
        · simp only [Option.getD_none] at ha
          simp [negotiate_accept_singleton n msg letter none t hm
            (by simpa using ha)]
          exact fallback_offer_ge_of_accept msg n.current_target_rent ha

theorem C7_witness :
    ({ exRowAccepted with
       conversation_history :=
         [⟨"user", "thanks again", 11⟩, ⟨"assistant", "ok", 12⟩],
       updated_at := 13 } : Negotiation).status = "accepted" ∧
    exRowAccepted.current_target_rent ≤
      ({ exRowAccepted with
         conversation_history :=
           [⟨"user", "thanks again", 11⟩, ⟨"assistant", "ok", 12⟩],
         updated_at := 13 } : Negotiation).current_target_rent := by
  have h := C7_accepted_status_terminal_but_target_mutable exRowAccepted
    "thanks again" none (some "ok") 11 (by decide) (by decide)
  exact ⟨h.1 _ (by decide), h.2 rfl _ (by decide)⟩

/-- C1: the claim states that every acceptance and counter update preserves
current_rent ≤ current_target_rent ≤ initial_target_rent for every possible
tenant_offer and recommended_counter.  Counterexample: on a row satisfying
the bounds at 2500 ≤ 2800 ≤ 2800, even the deterministic fallback accepts a
message offering 3000 and writes current_target_rent = 3000, above
initial_target_rent. -/
theorem C1_counterexample :
    RentBounds exRow ∧
    (negotiate_with_ai [exRow] "t@example.com" (some "I can do $3000") none
        (some "ok") 1).2 =
      [{ exRow with
         status := "accepted", current_target_rent := 3000,
         conversation_history :=
           [⟨"user", "I can do $3000", 1⟩, ⟨"assistant", "ok", 2⟩],
         updated_at := 3 }] ∧
    ¬ RentBounds { exRow with
         status := "accepted", current_target_rent := 3000,
         conversation_history :=
           [⟨"user", "I can do $3000", 1⟩, ⟨"assistant", "ok", 2⟩],
         updated_at := 3 } := by decide

/-- C1 (amended): the step applies the decided figure with no clamping, so
the bounds are preserved exactly when the written value itself lies between
current_rent and initial_target_rent; with an unconstrained tenant_offer or
recommended_counter (or a fallback acceptance above the initial target) the
stored bounds can be violated. -/
theorem C1_bounds_preserved_only_for_in_range_values (n : Negotiation)
    (msg letter : String) (oa : Option Analysis) (t : Nat)
    (hm : msg.isEmpty = false) (hb : RentBounds n)
    (hlo : n.current_rent ≤
      writtenTarget (oa.getD (fallbackAnalysis msg n.current_target_rent))
        n.current_target_rent)
    (hhi : writtenTarget (oa.getD (fallbackAnalysis msg n.current_target_rent))
        n.current_target_rent ≤ n.initial_target_rent) :
    ∀ r ∈ (negotiate_with_ai [n] n.tenant_email (some msg) oa (some letter) t).2,
      RentBounds r := by
  cases ha : (oa.getD (fallbackAnalysis msg n.current_target_rent)).should_accept
  · rw [negotiate_counter_singleton n msg letter oa t hm ha]
    simp only [writtenTarget, ha, Bool.false_eq_true, if_false] at hlo hhi
    intro r hr
    simp only [List.mem_singleton] at hr
    subst hr
    exact ⟨hlo, hhi⟩
  · rw [negotiate_accept_singleton n msg letter oa t hm ha]
    simp only [writtenTarget, ha, if_true] at hlo hhi
    intro r hr
    simp only [List.mem_singleton] at hr
    subst hr
    exact ⟨hlo, hhi⟩

theorem C1_witness :
    RentBounds { exRow with
      conversation_history := [⟨"user", "thanks", 1⟩, ⟨"assistant", "ok", 2⟩],
      updated_at := 3 } :=
  C1_bounds_preserved_only_for_in_range_values exRow "thanks" "ok" none 1
    (by decide) (by decide) (by decide) (by decide) _ (by decide)

/-- C2: the claim states that a non-accepting step writes
recommended_counter and that the result never increases above the previous
position and never falls below current_rent.  Counterexample: an analysis
recommending 2900 against a previous position of 2800 is written as is, an
increase above the previous value. -/
theorem C2_counterexample :
    exRow.current_target_rent = 2800 ∧
    (negotiate_with_ai [exRow] "t@example.com" (some "how about $2600")
        (some { tenant_offer := some 2600, tenant_intent := "countering",
                should_accept := false, recommended_counter := some 2900,
                reasoning := "hold firm" }) (some "ok") 1).2 =
      [{ exRow with
         current_target_rent := 2900,
         conversation_history :=
           [⟨"user", "how about $2600", 1⟩, ⟨"assistant", "ok", 2⟩],
         updated_at := 3 }] ∧
    ¬ ((2900 : Int) ≤ 2800) := by decide

/-- C2 (amended): a non-accepting step stores exactly recommended_counter
when it is present and nonzero (else the unchanged position), with no bound
check; the never-increase and never-below-current_rent guarantees hold
exactly when recommended_counter itself lies between current_rent and the
previous position. -/
theorem C2_counter_written_without_bounds_check (n : Negotiation)
    (msg letter : String) (oa : Option Analysis) (t : Nat)
    (hm : msg.isEmpty = false)
    (ha : (oa.getD (fallbackAnalysis msg n.current_target_rent)).should_accept
      = false) :
    (∀ r ∈ (negotiate_with_ai [n] n.tenant_email (some msg) oa (some letter) t).2,
      r.current_target_rent =
        pyOr (oa.getD (fallbackAnalysis msg n.current_target_rent)).recommended_counter
          n.current_target_rent) ∧
    (∀ c : Int,
      (oa.getD (fallbackAnalysis msg n.current_target_rent)).recommended_counter
        = some c →
      c ≠ 0 → n.current_rent ≤ c → c ≤ n.current_target_rent →
      ∀ r ∈ (negotiate_with_ai [n] n.tenant_email (some msg) oa (some letter) t).2,
        n.current_rent ≤ r.current_target_rent ∧
        r.current_target_rent ≤ n.current_target_rent) := by
  rw [negotiate_counter_singleton n msg letter oa t hm ha]
  constructor
  · intro r hr
    simp only [List.mem_singleton] at hr
    subst hr
    rfl
  · intro c hc hc0 h1 h2 r hr
    simp only [List.mem_singleton] at hr
    subst hr
    have hv : pyOr (oa.getD (fallbackAnalysis msg n.current_target_rent)).recommended_counter
        n.current_target_rent = c := by
      rw [hc]; simp [pyOr, hc0]
    simp only [hv]
    exact ⟨h1, h2⟩

theorem C2_witness :
    (2500 : Int) ≤ ({ exRow with
      conversation_history :=
        [⟨"user", "how about $2600", 1⟩, ⟨"assistant", "ok", 2⟩],
      updated_at := 3 } : Negotiation).current_target_rent ∧
    ({ exRow with
      conversation_history :=
        [⟨"user", "how about $2600", 1⟩, ⟨"assistant", "ok", 2⟩],
      updated_at := 3 } : Negotiation).current_target_rent ≤ 2800 :=
  (C2_counter_written_without_bounds_check exRow "how about $2600" "ok" none 1
      (by decide) (by decide)).2 2800 (by decide) (by decide) (by decide)
    (by decide)
    { exRow with
      conversation_history :=
        [⟨"user", "how about $2600", 1⟩, ⟨"assistant", "ok", 2⟩],
      updated_at := 3 }
    (by decide)

/-- C3: when the reasoning service fails, the fallback analysis extracts
the first numeric amount from the tenant message; an amount at or above the
current position is treated as acceptance, otherwise the intent is
discussing with the recommended counter equal to the unchanged position
(which is then stored unchanged), and the failure itself is not surfaced as
an error result. -/
theorem C3_fallback_is_deterministic_and_not_an_error (n : Negotiation)
    (msg letter : String) (t : Nat) (hm : msg.isEmpty = false) :
    ((fallbackAnalysis msg n.current_target_rent).tenant_offer =
      (firstAmount msg.data).map Int.ofNat) ∧
    ((fallbackAnalysis msg n.current_target_rent).should_accept = true ↔
      ∃ k : Nat, firstAmount msg.data = some k ∧
        n.current_target_rent ≤ Int.ofNat k) ∧
    ((fallbackAnalysis msg n.current_target_rent).tenant_intent
      = "discussing") ∧
    ((fallbackAnalysis msg n.current_target_rent).recommended_counter =
      some n.current_target_rent) ∧
    ((negotiate_with_ai [n] n.tenant_email (some msg) none (some letter) t).1.error_msg
      = none) ∧
    ((negotiate_with_ai [n] n.tenant_email (some msg) none (some letter) t).1.status
      ≠ "error") ∧
    ((fallbackAnalysis msg n.current_target_rent).should_accept = false →
      ∀ r ∈ (negotiate_with_ai [n] n.tenant_email (some msg) none (some letter) t).2,
        r.current_target_rent = n.current_target_rent) ∧
    ((fallbackAnalysis msg n.current_target_rent).should_accept = true →
      (negotiate_with_ai [n] n.tenant_email (some msg) none (some letter) t).1.status
        = "accepted") := by
  refine ⟨?_, ?_, ?_, fallback_recommended_counter_eq msg n.current_target_rent,
    ?_, ?_, ?_, ?_⟩
  · unfold fallbackAnalysis
    cases hfa : firstAmount msg.data <;> simp [hm, hfa]
  · unfold fallbackAnalysis
    cases hfa : firstAmount msg.data <;> simp [hm, hfa]
  · unfold fallbackAnalysis
    cases hfa : firstAmount msg.data <;> simp [hm, hfa]
  · cases ha : (fallbackAnalysis msg n.current_target_rent).should_accept
    · simp [negotiate_counter_singleton n msg letter none t hm (by simpa using ha)]
    · simp [negotiate_accept_singleton n msg letter none t hm (by simpa using ha)]
  · cases ha : (fallbackAnalysis msg n.current_target_rent).should_accept
    · simp [negotiate_counter_singleton n msg letter none t hm (by simpa using ha)]
    · simp [negotiate_accept_singleton n msg letter none t hm (by simpa using ha)]
  · intro hacc r hr
    rw [negotiate_counter_singleton n msg letter none t hm (by simpa using hacc)]
      at hr
    simp only [List.mem_singleton] at hr
    subst hr
    simp [fallback_recommended_counter_eq, pyOr]
  · intro hacc
    simp [negotiate_accept_singleton n msg letter none t hm (by simpa using hacc)]

theorem C3_witness :
    (fallbackAnalysis "$2650" exRow.current_target_rent).tenant_offer
      = some 2650 ∧
    (fallbackAnalysis "$2650" exRow.current_target_rent).should_accept
      = false ∧
    (negotiate_with_ai [exRow] exRow.tenant_email (some "$2650") none
        (some "ok") 1).1.error_msg = none := by
  have h := C3_fallback_is_deterministic_and_not_an_error exRow "$2650" "ok" 1
    (by decide)
  exact ⟨by rw [h.1]; decide, by decide, h.2.2.2.2.1⟩
